import Mathlib

/-!
Verification development for the serv00KeepAlive login/status-detection core
(`serv00_login.py`). The HTTP transport layer is modelled as an oracle that
supplies the outcome of each network call (an exception text, or a response
with status code, body text and final URL); everything the module computes
from those outcomes — token extraction, result classification, detail
extraction, the retry loop with session reset — is embedded as executable
Lean functions mirroring the source.
-/

/-! ### Python string helpers -/

/-- The whitespace characters matched by `\s` in the patterns of this module
and stripped by `str.strip()` (ASCII whitespace; the bodies at issue contain
no exotic Unicode spaces). -/
def pyIsSpace (c : Char) : Bool :=
  c = ' ' || c = '\t' || c = '\n' || c = '\r' || c = '\x0b' || c = '\x0c'

/-- `str.strip()` on a character list: drop whitespace at both ends. -/
def stripChars (l : List Char) : List Char :=
  ((l.dropWhile pyIsSpace).reverse.dropWhile pyIsSpace).reverse

/-- `str.strip()`. -/
def pyStrip (s : String) : String := String.mk (stripChars s.data)

/-- Prefix test on character lists (`str.startswith` semantics). -/
def listIsPrefix : List Char → List Char → Bool
  | [], _ => true
  | _ :: _, [] => false
  | a :: as, b :: bs => a = b && listIsPrefix as bs

/-- Python `sub in s` substring test on character lists. -/
def listContains : List Char → List Char → Bool
  | [], sub => sub.isEmpty
  | c :: t, sub => listIsPrefix sub (c :: t) || listContains t sub

/-- Python `sub in s` substring test on strings. -/
def strContains (s sub : String) : Bool := listContains s.data sub.data

/-- Python `x or default` for an optional string (`None` and `""` are falsy). -/
def pyOrDefault (o : Option String) (d : String) : String :=
  match o with
  | some s => if s = "" then d else s
  | none => d

/-! ### A matcher for the module's four fixed regexes

Each pattern used by `serv00_login.py` has the shape
`<items> ( <char class>+ ) <items>` — literal pieces and starred/plussed
character classes around a single capture group over a plussed character
class. The matcher below implements Python `re.search` semantics for exactly
this shape: leftmost match position wins, and within a position alternatives
are tried in greedy backtracking order. -/

/-- One non-capturing piece of a pattern: a literal string, `cls*`, or
`cls+`. -/
inductive Item where
  | lit : List Char → Item
  | star : (Char → Bool) → Item
  | plus : (Char → Bool) → Item

/-- Literal item from a string. -/
def litS (s : String) : Item := Item.lit s.data

/-- A pattern `pre ( grp+ ) post` with a single capture group. -/
structure Pat where
  pre : List Item
  grp : Char → Bool
  post : List Item

/-- Consume a literal: `some` remainder on success. -/
def matchLit : List Char → List Char → Option (List Char)
  | [], s => some s
  | _ :: _, [] => none
  | a :: as, b :: bs => if a = b then matchLit as bs else none

/-- All remainders after `p*` at the head of `s`, greediest first. -/
def starRems (p : Char → Bool) : List Char → List (List Char)
  | [] => [[]]
  | c :: cs => if p c then starRems p cs ++ [c :: cs] else [c :: cs]

/-- All remainders after `p+` at the head of `s`, greediest first. -/
def plusRems (p : Char → Bool) : List Char → List (List Char)
  | [] => []
  | c :: cs => if p c then starRems p cs else []

/-- All `(consumed, remainder)` splits for `p*`, greediest first. -/
def starSplits (p : Char → Bool) : List Char → List (List Char × List Char)
  | [] => [([], [])]
  | c :: cs =>
    if p c then ((starSplits p cs).map (fun q => (c :: q.1, q.2))) ++ [([], c :: cs)]
    else [([], c :: cs)]

/-- All `(consumed, remainder)` splits for `p+`, greediest first. -/
def plusSplits (p : Char → Bool) : List Char → List (List Char × List Char)
  | [] => []
  | c :: cs =>
    if p c then (starSplits p cs).map (fun q => (c :: q.1, q.2)) else []

/-- All remainders after matching a list of items at the head of `s`, in
backtracking priority order. -/
def matchItems : List Item → List Char → List (List Char)
  | [], s => [s]
  | Item.lit l :: rest, s =>
    match matchLit l s with
    | some s2 => matchItems rest s2
    | none => []
  | Item.star p :: rest, s => (starRems p s).flatMap (fun s2 => matchItems rest s2)
  | Item.plus p :: rest, s => (plusRems p s).flatMap (fun s2 => matchItems rest s2)

/-- First `some` produced by `f` over a list, in order. -/
def firstSome {α β : Type} (f : α → Option β) : List α → Option β
  | [] => none
  | a :: as =>
    match f a with
    | some b => some b
    | none => firstSome f as

/-- Try to match `pat` anchored at the head of `s`; on success return the
text captured by the group of the first full match in backtracking priority
order (Python group(1)). -/
def matchPatAt (pat : Pat) (s : List Char) : Option (List Char) :=
  firstSome
    (fun rem1 =>
      firstSome
        (fun cr => if (matchItems pat.post cr.2).isEmpty then none else some cr.1)
        (plusSplits pat.grp rem1))
    (matchItems pat.pre s)

/-- `re.search`: try every start position left to right. -/
def reSearchAux (pat : Pat) : List Char → Option (List Char)
  | [] => matchPatAt pat []
  | c :: cs =>
    match matchPatAt pat (c :: cs) with
    | some cap => some cap
    | none => reSearchAux pat cs

/-- `re.search(pat, s)`, returning the captured group of the first match. -/
def reSearch (pat : Pat) (s : String) : Option String :=
  (reSearchAux pat s.data).map String.mk

/-! ### Character classes and patterns of `serv00_login.py` -/

/-- `[^"]`. -/
def notQuote (c : Char) : Bool := !(c = '"')

/-- `[:\s]`. -/
def colonOrSpace (c : Char) : Bool := c = ':' || pyIsSpace c

/-- `[^<\n]`. -/
def notTagOrNewline (c : Char) : Bool := !(c = '<' || c = '\n')

/-- `[^>]`. -/
def notGt (c : Char) : Bool := !(c = '>')

/-- `[^<]`. -/
def notLt (c : Char) : Bool := !(c = '<')

/-- `Serv00Client.CSRF_PATTERN`:
`name="csrfmiddlewaretoken"\s+value="([^"]+)"`. -/
def CSRF_PATTERN : Pat :=
  { pre := [litS "name=\"csrfmiddlewaretoken\"", Item.plus pyIsSpace, litS "value=\""]
    grp := notQuote
    post := [litS "\""] }

/-- Pattern of `_extract_ban_reason`: `Konto zablokowane[:\s]*([^<\n]+)`. -/
def BAN_REASON_PATTERN : Pat :=
  { pre := [litS "Konto zablokowane", Item.star colonOrSpace]
    grp := notTagOrNewline
    post := [] }

/-- Pattern of `_extract_account_validity`: `Konto ważne do[:\s]*([^<\n]+)`. -/
def VALIDITY_PATTERN : Pat :=
  { pre := [litS "Konto ważne do", Item.star colonOrSpace]
    grp := notTagOrNewline
    post := [] }

/-- Pattern of `_extract_error_message`:
`class="[^"]*alert[^"]*"[^>]*>([^<]+)`. -/
def ALERT_PATTERN : Pat :=
  { pre := [litS "class=\"", Item.star notQuote, litS "alert", Item.star notQuote,
            litS "\"", Item.star notGt, litS ">"]
    grp := notLt
    post := [] }

/-! ### Data model -/

/-- `AccountStatus` enum. -/
inductive AccountStatus where
  | ACTIVE
  | BANNED
  | LOGIN_FAILED
  | NETWORK_ERROR
  | UNKNOWN
deriving DecidableEq

/-- `LoginResult` dataclass. -/
structure LoginResult where
  status : AccountStatus
  message : String
  panel_url : String
  username : String
  details : Option String := none
deriving DecidableEq

/-- Keyword constants of `Serv00Client`. -/
def BANNED_KEYWORDS : List String := ["Konto zablokowane", "Account blocked", "blocked"]

/-- Success keywords. -/
def SUCCESS_KEYWORDS : List String := ["Strona główna", "Zalogowany jako", "Dashboard"]

/-- Login-page keywords. -/
def LOGIN_PAGE_KEYWORDS : List String := ["Zaloguj się", "Login", "Sign in"]

/-! ### Classifier and extractors -/

/-- `Serv00Client._extract_ban_reason`. -/
def extract_ban_reason (content : String) : String :=
  match reSearch BAN_REASON_PATTERN content with
  | some g => pyStrip g
  | none => "TOS 违规"

/-- `Serv00Client._extract_account_validity`. -/
def extract_account_validity (content : String) : Option String :=
  (reSearch VALIDITY_PATTERN content).map (fun g => "有效期至: " ++ pyStrip g)

/-- `Serv00Client._extract_error_message`. -/
def extract_error_message (content : String) : Option String :=
  (reSearch ALERT_PATTERN content).map pyStrip

/-- The final response of the login POST: body text and final URL. -/
structure PostResponse where
  text : String
  url : String

/-- `Serv00Client._parse_login_result`. The three `for keyword in …: if
keyword in content:` loops return as soon as some keyword matches and do not
otherwise use the keyword, so each is embedded as an `if … .any` test. -/
def parse_login_result (panel_url : String) (response : PostResponse)
    (username : String) : LoginResult :=
  let content := response.text
  if BANNED_KEYWORDS.any (fun kw => strContains content kw) then
    { status := .BANNED, message := "账号已被封禁", panel_url := panel_url,
      username := username, details := some (extract_ban_reason content) }
  else if SUCCESS_KEYWORDS.any (fun kw => strContains content kw) then
    { status := .ACTIVE, message := "账号正常", panel_url := panel_url,
      username := username, details := extract_account_validity content }
  else if LOGIN_PAGE_KEYWORDS.any (fun kw => strContains content kw) then
    { status := .LOGIN_FAILED, message := "登录失败", panel_url := panel_url,
      username := username,
      details := some (pyOrDefault (extract_error_message content) "用户名或密码错误") }
  else
    { status := .UNKNOWN, message := "无法判断账号状态", panel_url := panel_url,
      username := username, details := some ("响应 URL: " ++ response.url) }

/-! ### Session model

A `requests.Session` holds a cookie jar and a header map. A fresh session is
modelled with an empty cookie jar and an empty header map onto which the
code's explicit `headers.update` calls are applied (the library-default
headers of a fresh session are identical on the construction path and the
reset path and play no role in the code, so they are left out of the map). -/

/-- Cookie jar / header map entries. -/
structure Session where
  cookies : List (String × String)
  headers : List (String × String)
deriving DecidableEq

/-- `dict.update` of one key/value pair: override an existing key or append. -/
def setHeader (hs : List (String × String)) (k v : String) : List (String × String) :=
  if hs.any (fun p => p.1 = k) then
    hs.map (fun p => if p.1 = k then (k, v) else p)
  else hs ++ [(k, v)]

/-- `headers.update(upds)`. -/
def updateHeaders (hs : List (String × String)) (upds : List (String × String)) :
    List (String × String) :=
  upds.foldl (fun acc p => setHeader acc p.1 p.2) hs

/-- Header lookup. -/
def lookupHeader (k : String) (hs : List (String × String)) : Option String :=
  (hs.find? (fun p => p.1 = k)).map (fun p => p.2)

/-- The header update applied in `Serv00Client.__init__` (lines 59-65). -/
def INIT_HEADER_UPDATE : List (String × String) :=
  [("User-Agent", "Mozilla/5.0 (Windows NT 10.0; Win64; x64) AppleWebKit/537.36 (KHTML, like Gecko) Chrome/120.0.0.0 Safari/537.36"),
   ("Accept", "text/html,application/xhtml+xml,application/xml;q=0.9,image/webp,*/*;q=0.8"),
   ("Accept-Language", "en-US,en;q=0.5"),
   ("Accept-Encoding", "gzip, deflate, br"),
   ("Connection", "keep-alive")]

/-- The header update applied when `login` rebuilds the session after a
transport exception (lines 109-112): only a (shorter) User-Agent. -/
def RESET_HEADER_UPDATE : List (String × String) :=
  [("User-Agent", "Mozilla/5.0 (Windows NT 10.0; Win64; x64) AppleWebKit/537.36")]

/-- The session as configured by `__init__`. -/
def initSession : Session :=
  { cookies := [], headers := updateHeaders [] INIT_HEADER_UPDATE }

/-- The fresh session built inside the retry loop after a transport
exception. -/
def resetSession : Session :=
  { cookies := [], headers := updateHeaders [] RESET_HEADER_UPDATE }

/-- `str.rstrip('/')`. -/
def rstripSlash (s : String) : String :=
  String.mk ((s.data.reverse.dropWhile (fun c => c = '/')).reverse)

/-- The mutable fields of `Serv00Client`. -/
structure Serv00Client where
  panel_url : String
  timeout : Int
  session : Session
deriving DecidableEq

/-- `Serv00Client.__init__`. -/
def mkClient (panel_url : String) (timeout : Int) : Serv00Client :=
  { panel_url := rstripSlash panel_url, timeout := timeout, session := initSession }

/-! ### Transport oracle and login flow -/

/-- Outcome of one HTTP call: a raised `requests.RequestException` with its
text, or a response with status code and body text. -/
inductive TransportOutcome where
  | exn : String → TransportOutcome
  | ok : Nat → String → TransportOutcome

/-- Oracle input for one iteration of the retry loop: the outcome of the
token-fetch GET and the outcome of the login POST (exception text, or final
response). The request parameters (URL, form data, headers, timeout) are
absorbed into the oracle. -/
structure Attempt where
  getOutcome : TransportOutcome
  postOutcome : Except String PostResponse

/-- `Serv00Client.get_csrf_token`, applied to the oracle outcome of its GET.
`raise_for_status` raises (an exception the function itself catches) exactly
for status codes 400-599; otherwise the body is searched with
`CSRF_PATTERN` and the first captured group returned. -/
def get_csrf_token (o : TransportOutcome) : Option String :=
  match o with
  | .exn _ => none
  | .ok status body =>
    if 400 ≤ status ∧ status < 600 then none
    else reSearch CSRF_PATTERN body

/-- `Serv00Client._do_login` for one attempt: fetch the token (its transport
errors are swallowed by `get_csrf_token`); on a missing token return the
token-failure result directly; otherwise the POST either raises (propagated
to `login`) or its response is classified. The credentials only flow into
the posted form, which the oracle absorbs. -/
def do_login (panel_url username : String) (a : Attempt) : Except String LoginResult :=
  match get_csrf_token a.getOutcome with
  | none =>
    .ok { status := .NETWORK_ERROR, message := "无法获取 CSRF token",
          panel_url := panel_url, username := username }
  | some _ =>
    match a.postOutcome with
    | .error e => .error e
    | .ok resp => .ok (parse_login_result panel_url resp username)

/-- The retry loop of `Serv00Client.login`: `fuel` iterations remain, `idx`
attempts were already made, `last_error` is the text of the last exception.
Returns the result together with the final client state (the session is
rebuilt after every exception) and the number of attempts made. -/
def loginAux (username : String) (retry_count : Int) (attempts : Nat → Attempt) :
    Serv00Client → Nat → Nat → Option String → LoginResult × Serv00Client × Nat
  | st, 0, idx, last_error =>
    ({ status := .NETWORK_ERROR,
       message := "网络错误 (重试 " ++ toString retry_count ++ " 次后失败)",
       panel_url := st.panel_url, username := username, details := last_error },
     st, idx)
  | st, fuel + 1, idx, _ =>
    match do_login st.panel_url username (attempts idx) with
    | .ok r => (r, st, idx + 1)
    | .error e =>
      loginAux username retry_count attempts
        { st with session := resetSession } fuel (idx + 1) (some e)

/-- `Serv00Client.login`: `range(retry_count)` iterations (none when
`retry_count ≤ 0`), starting with `last_error = None`. -/
def login (st : Serv00Client) (username : String) (retry_count : Int)
    (attempts : Nat → Attempt) : LoginResult × Serv00Client × Nat :=
  loginAux username retry_count attempts st retry_count.toNat 0 none

/-! ### Concrete fixtures used in witnesses -/

/-- A login page body holding the hidden CSRF field of the spec example. -/
def TOKEN_BODY : String :=
  "<input type=\"hidden\" name=\"csrfmiddlewaretoken\" value=\"abc123XYZ\">"

/-- An attempt whose POST raises a transport exception. -/
def attRaise : Attempt :=
  { getOutcome := .ok 200 TOKEN_BODY, postOutcome := .error "boom" }

/-- An attempt whose token-fetch GET raises (swallowed, token absent). -/
def attTokenFail : Attempt :=
  { getOutcome := .exn "timeout", postOutcome := .error "unused" }

/-- A success-page response body. -/
def ACTIVE_BODY : String := "Dashboard Konto ważne do: 2 stycznia 2036</td>"

/-- An attempt that completes with a success-page response. -/
def attOkActive : Attempt :=
  { getOutcome := .ok 200 TOKEN_BODY,
    postOutcome := .ok { text := ACTIVE_BODY, url := "https://panel12.serv00.com/" } }

/-- Oracle: every attempt raises on POST. -/
def attsAllRaise : Nat → Attempt := fun _ => attRaise

/-- Oracle: every token fetch fails. -/
def attsTokenFail : Nat → Attempt := fun _ => attTokenFail

/-- Oracle: first attempt raises, later ones succeed. -/
def attsRaiseThenOk : Nat → Attempt := fun i => if i = 0 then attRaise else attOkActive

/-- Exception-text function for the all-raise oracle. -/
def errBoom : Nat → String := fun _ => "boom"

/-- A concrete client. -/
def clientC : Serv00Client := mkClient "https://panel12.serv00.com" 30

/-! ### Helper lemmas -/

theorem listIsPrefix_refl (l : List Char) : listIsPrefix l l = true := by
  induction l with
  | nil => rfl
  | cons c t ih => simp [listIsPrefix, ih]

theorem listContains_refl (l : List Char) : listContains l l = true := by
  cases l with
  | nil => rfl
  | cons c t => simp [listContains, listIsPrefix_refl]

theorem listContains_append_right (a b : List Char) : listContains (a ++ b) b = true := by
  induction a with
  | nil => simpa using listContains_refl b
  | cons c t ih =>
    simp [listContains, ih]

theorem strContains_append_right (a b : String) : strContains (a ++ b) b = true :=
  listContains_append_right a.data b.data

theorem parse_status_ne_network (pu : String) (resp : PostResponse) (u : String) :
    (parse_login_result pu resp u).status ≠ AccountStatus.NETWORK_ERROR := by
  unfold parse_login_result
  dsimp only
  split_ifs <;> simp

theorem do_login_ok_network_details (pu u : String) (a : Attempt) (r : LoginResult)
    (h : do_login pu u a = .ok r) (hs : r.status = AccountStatus.NETWORK_ERROR) :
    r.details = none := by
  unfold do_login at h
  cases hg : get_csrf_token a.getOutcome with
  | none =>
    rw [hg] at h
    simp only [Except.ok.injEq] at h
    rw [← h]
  | some t =>
    rw [hg] at h
    cases hp : a.postOutcome with
    | error e => rw [hp] at h; simp at h
    | ok resp =>
      rw [hp] at h
      simp only [Except.ok.injEq] at h
      exact absurd (h ▸ hs) (parse_status_ne_network pu resp u)

theorem do_login_error_post (pu u : String) (a : Attempt) (e : String)
    (h : do_login pu u a = .error e) : a.postOutcome = .error e := by
  unfold do_login at h
  cases hg : get_csrf_token a.getOutcome <;> rw [hg] at h
  · simp at h
  · cases hp : a.postOutcome <;> rw [hp] at h
    · simp only [Except.error.injEq] at h
      rw [h]
    · simp at h

theorem loginAux_all_error (u : String) (rc : Int) (atts : Nat → Attempt) (err : Nat → String) :
    ∀ (fuel : Nat) (st : Serv00Client) (idx : Nat) (last : Option String),
      (∀ j, j < fuel → do_login st.panel_url u (atts (idx + j)) = .error (err (idx + j))) →
      loginAux u rc atts st fuel idx last =
        ({ status := .NETWORK_ERROR,
           message := "网络错误 (重试 " ++ toString rc ++ " 次后失败)",
           panel_url := st.panel_url, username := u,
           details := if fuel = 0 then last else some (err (idx + fuel - 1)) },
         if fuel = 0 then st else { st with session := resetSession }, idx + fuel) := by
  intro fuel
  induction fuel with
  | zero =>
    intro st idx last _
    simp [loginAux]
  | succ f ih =>
    intro st idx last herr
    have h0 : do_login st.panel_url u (atts idx) = .error (err idx) := by
      simpa using herr 0 (Nat.succ_pos f)
    have hrec := ih { st with session := resetSession } (idx + 1) (some (err idx))
      (fun j hj => by
        have hh := herr (j + 1) (by omega)
        have e1 : idx + (j + 1) = idx + 1 + j := by omega
        rwa [e1] at hh)
    simp only [loginAux, h0, hrec]
    by_cases hf : f = 0
    · subst hf; simp
    · have e3 : idx + 1 + f - 1 = idx + (f + 1) - 1 := by omega
      have e4 : idx + 1 + f = idx + (f + 1) := by omega
      simp [hf, e3, e4]

theorem loginAux_success (u : String) (rc : Int) (atts : Nat → Attempt) (err : Nat → String) :
    ∀ (k fuel : Nat) (st : Serv00Client) (idx : Nat) (last : Option String) (r : LoginResult),
      k < fuel →
      (∀ j, j < k → do_login st.panel_url u (atts (idx + j)) = .error (err (idx + j))) →
      do_login st.panel_url u (atts (idx + k)) = .ok r →
      loginAux u rc atts st fuel idx last =
        (r, if k = 0 then st else { st with session := resetSession }, idx + k + 1) := by
  intro k
  induction k with
  | zero =>
    intro fuel st idx last r hk _ hok
    cases fuel with
    | zero => omega
    | succ f =>
      have h : do_login st.panel_url u (atts idx) = .ok r := by simpa using hok
      simp [loginAux, h]
  | succ m ih =>
    intro fuel st idx last r hk herr hok
    cases fuel with
    | zero => omega
    | succ f =>
      have h0 : do_login st.panel_url u (atts idx) = .error (err idx) := by
        simpa using herr 0 (Nat.succ_pos m)
      have hrec := ih f { st with session := resetSession } (idx + 1) (some (err idx)) r
        (by omega)
        (fun j hj => by
          have hh := herr (j + 1) (by omega)
          have e1 : idx + (j + 1) = idx + 1 + j := by omega
          rwa [e1] at hh)
        (by
          have e2 : idx + (m + 1) = idx + 1 + m := by omega
          rwa [e2] at hok)
      simp only [loginAux, h0, hrec]
      by_cases hm : m = 0
      · subst hm; simp
      · have e4 : idx + 1 + m + 1 = idx + (m + 1) + 1 := by omega
        simp [hm, e4]

theorem loginAux_network_details (u : String) (rc : Int) (atts : Nat → Attempt) :
    ∀ (fuel : Nat) (st : Serv00Client) (idx : Nat) (last : Option String),
      (last = none ∨ ∃ i e, (atts i).postOutcome = Except.error e ∧ last = some e) →
      (loginAux u rc atts st fuel idx last).1.status = AccountStatus.NETWORK_ERROR →
      ((loginAux u rc atts st fuel idx last).1.details = none ∨
        ∃ i e, (atts i).postOutcome = Except.error e ∧
          (loginAux u rc atts st fuel idx last).1.details = some e) := by
  intro fuel
  induction fuel with
  | zero =>
    intro st idx last hlast _
    simpa [loginAux] using hlast
  | succ f ih =>
    intro st idx last hlast hstat
    cases hd : do_login st.panel_url u (atts idx) with
    | ok r =>
      simp only [loginAux, hd] at hstat ⊢
      exact Or.inl (do_login_ok_network_details _ _ _ _ hd hstat)
    | error e =>
      simp only [loginAux, hd] at hstat ⊢
      exact ih _ _ _ (Or.inr ⟨idx, e, do_login_error_post _ _ _ _ hd, rfl⟩) hstat

/-! ### Claims -/

/-- C1: every response body containing a banned-indicator keyword is
classified Banned, regardless of success or login-page keywords also being
present: the banned scan runs first and first match wins. -/
theorem c1_banned_has_priority (pu : String) (resp : PostResponse) (u : String)
    (h : BANNED_KEYWORDS.any (fun kw => strContains resp.text kw) = true) :
    (parse_login_result pu resp u).status = AccountStatus.BANNED := by
  simp [parse_login_result, h]

/-- C1 witness: a synthetic body with both a banned and a success keyword is
classified Banned. -/
theorem c1_banned_has_priority_witness :
    BANNED_KEYWORDS.any (fun kw => strContains "Konto zablokowane Strona główna" kw) = true ∧
    SUCCESS_KEYWORDS.any (fun kw => strContains "Konto zablokowane Strona główna" kw) = true ∧
    (parse_login_result "p" { text := "Konto zablokowane Strona główna", url := "u" } "user").status
      = AccountStatus.BANNED :=
  ⟨by decide, by decide,
   c1_banned_has_priority "p" { text := "Konto zablokowane Strona główna", url := "u" } "user"
     (by decide)⟩

/-- C2: with retry_count > 1, a token fetch that comes back absent on the
first attempt makes login return the token-failure NetworkError result at
once, with no details and exactly one attempt consumed. -/
theorem c2_token_absent_short_circuit (st : Serv00Client) (u : String) (rc : Int)
    (atts : Nat → Attempt) (h1 : 1 < rc)
    (h2 : get_csrf_token (atts 0).getOutcome = none) :
    login st u rc atts =
      ({ status := .NETWORK_ERROR, message := "无法获取 CSRF token",
         panel_url := st.panel_url, username := u, details := none }, st, 1) := by
  have hok : do_login st.panel_url u (atts 0) = .ok
      { status := .NETWORK_ERROR, message := "无法获取 CSRF token",
        panel_url := st.panel_url, username := u } := by
    simp [do_login, h2]
  have hs := loginAux_success u rc atts (fun _ => "") 0 rc.toNat st 0 none
    { status := .NETWORK_ERROR, message := "无法获取 CSRF token",
      panel_url := st.panel_url, username := u }
    (by omega) (fun j hj => absurd hj (by omega)) (by simpa using hok)
  simp [login, hs]

/-- C2 witness. -/
theorem c2_token_absent_short_circuit_witness :
    login clientC "alice" 3 attsTokenFail =
      ({ status := .NETWORK_ERROR, message := "无法获取 CSRF token",
         panel_url := clientC.panel_url, username := "alice", details := none }, clientC, 1) :=
  c2_token_absent_short_circuit clientC "alice" 3 attsTokenFail (by omega) (by decide)

/-- C3: if all retry_count ≥ 1 attempts raise transport exceptions, login
returns a NetworkError result carrying the retry count in its message and
the last exception text in details, after exactly retry_count attempts; and
if some attempt completes without an exception, its classifier result is
returned immediately, with no further attempts. (No transport exception can
escape: login is total, every oracle outcome yields a LoginResult.) -/
theorem c3_transport_retry (st : Serv00Client) (u : String) (rc : Int)
    (atts : Nat → Attempt) (err : Nat → String) (hrc : 1 ≤ rc) :
    ((∀ i, i < rc.toNat → do_login st.panel_url u (atts i) = .error (err i)) →
      login st u rc atts =
        ({ status := .NETWORK_ERROR,
           message := "网络错误 (重试 " ++ toString rc ++ " 次后失败)",
           panel_url := st.panel_url, username := u,
           details := some (err (rc.toNat - 1)) },
         { st with session := resetSession }, rc.toNat)) ∧
    (∀ k r, k < rc.toNat →
      (∀ j, j < k → do_login st.panel_url u (atts j) = .error (err j)) →
      do_login st.panel_url u (atts k) = .ok r →
      (login st u rc atts).1 = r ∧ (login st u rc atts).2.2 = k + 1) := by
  constructor
  · intro h
    have hall := loginAux_all_error u rc atts err rc.toNat st 0 none
      (fun j hj => by simpa using h j hj)
    have hne : ¬ rc.toNat = 0 := by omega
    simp [login, hall, hne]
  · intro k r hk herr hok
    have hs := loginAux_success u rc atts err k rc.toNat st 0 none r hk
      (fun j hj => by simpa using herr j hj) (by simpa using hok)
    constructor <;> simp [login, hs]

/-- C3 witness: two raising attempts exhaust retry_count = 2; and with a
raise-then-succeed oracle the second attempt's classifier result is
returned after exactly 2 attempts. -/
theorem c3_transport_retry_witness :
    (login clientC "bob" 2 attsAllRaise =
      ({ status := .NETWORK_ERROR, message := "网络错误 (重试 2 次后失败)",
         panel_url := clientC.panel_url, username := "bob", details := some "boom" },
       { clientC with session := resetSession }, 2)) ∧
    ((login clientC "bob" 2 attsRaiseThenOk).1 =
        parse_login_result clientC.panel_url
          { text := ACTIVE_BODY, url := "https://panel12.serv00.com/" } "bob" ∧
      (login clientC "bob" 2 attsRaiseThenOk).2.2 = 2) := by
  constructor
  · exact ((c3_transport_retry clientC "bob" 2 attsAllRaise errBoom (by omega)).1
      (fun i _ => rfl)).trans (by decide)
  · have h := (c3_transport_retry clientC "bob" 2 attsRaiseThenOk errBoom (by omega)).2 1
      (parse_login_result clientC.panel_url
        { text := ACTIVE_BODY, url := "https://panel12.serv00.com/" } "bob")
      (by omega)
      (fun j hj => by
        have hj0 : j = 0 := by omega
        subst hj0; rfl)
      rfl
    exact ⟨h.1, h.2⟩

/-- C4 counterexample: a non-2xx status that is not a 4xx/5xx (here 304)
does not yield absent — the token is still extracted, because
raise_for_status only raises for 400-599. -/
theorem c4_counterexample :
    get_csrf_token (TransportOutcome.ok 304 TOKEN_BODY) = some "abc123XYZ" ∧
    ¬ (200 ≤ 304 ∧ 304 < 300) := by decide

/-- C4 (amended): get_csrf_token returns absent on any transport error and
on 4xx/5xx statuses (those raise_for_status raises for); on all other
statuses it returns the first captured value of the hidden-field pattern,
absent when the body has no such field. -/
theorem c4_token_fetch_contract :
    (∀ e, get_csrf_token (.exn e) = none) ∧
    (∀ status body, 400 ≤ status → status < 600 →
      get_csrf_token (.ok status body) = none) ∧
    (∀ status body, status < 400 ∨ 600 ≤ status →
      get_csrf_token (.ok status body) = reSearch CSRF_PATTERN body) ∧
    get_csrf_token (.ok 200 TOKEN_BODY) = some "abc123XYZ" ∧
    (∀ status body, status < 400 ∨ 600 ≤ status →
      reSearch CSRF_PATTERN body = none → get_csrf_token (.ok status body) = none) := by
  refine ⟨fun e => rfl, ?_, ?_, by decide, ?_⟩
  · intro s b hs1 hs2
    simp only [get_csrf_token]
    rw [if_pos ⟨hs1, hs2⟩]
  · intro s b hs
    simp only [get_csrf_token]
    rw [if_neg (by omega)]
  · intro s b hs hn
    simp only [get_csrf_token]
    rw [if_neg (by omega)]
    exact hn

/-- C4 witness. -/
theorem c4_token_fetch_contract_witness :
    get_csrf_token (.exn "boom") = none ∧
    get_csrf_token (.ok 500 TOKEN_BODY) = none ∧
    get_csrf_token (.ok 200 "<p>no token here</p>") = none ∧
    get_csrf_token (.ok 200 TOKEN_BODY) = some "abc123XYZ" :=
  ⟨c4_token_fetch_contract.1 "boom",
   c4_token_fetch_contract.2.1 500 TOKEN_BODY (by omega) (by omega),
   c4_token_fetch_contract.2.2.2.2 200 "<p>no token here</p>" (Or.inl (by omega)) (by decide),
   c4_token_fetch_contract.2.2.2.1⟩

/-- C5: a body matching none of the three keyword sets is classified
Unknown, with a details string that contains the final response URL. -/
theorem c5_unknown_classification (pu : String) (resp : PostResponse) (u : String)
    (h1 : BANNED_KEYWORDS.any (fun kw => strContains resp.text kw) = false)
    (h2 : SUCCESS_KEYWORDS.any (fun kw => strContains resp.text kw) = false)
    (h3 : LOGIN_PAGE_KEYWORDS.any (fun kw => strContains resp.text kw) = false) :
    (parse_login_result pu resp u).status = AccountStatus.UNKNOWN ∧
    (parse_login_result pu resp u).details = some ("响应 URL: " ++ resp.url) ∧
    strContains ("响应 URL: " ++ resp.url) resp.url = true := by
  refine ⟨?_, ?_, strContains_append_right _ _⟩ <;> simp [parse_login_result, h1, h2, h3]

/-- C5 witness. -/
theorem c5_unknown_classification_witness :
    (parse_login_result "p" { text := "xyz", url := "https://panel12.serv00.com/x" } "u").status
      = AccountStatus.UNKNOWN ∧
    (parse_login_result "p" { text := "xyz", url := "https://panel12.serv00.com/x" } "u").details
      = some ("响应 URL: " ++ "https://panel12.serv00.com/x") ∧
    strContains ("响应 URL: " ++ "https://panel12.serv00.com/x") "https://panel12.serv00.com/x"
      = true :=
  c5_unknown_classification "p" { text := "xyz", url := "https://panel12.serv00.com/x" } "u"
    (by decide) (by decide) (by decide)

/-- C6 counterexample: a no-keyword body produces an Unknown result whose
details field IS populated (with the response URL), so details is not
restricted to Banned/Active/LoginFailed/NetworkError results. -/
theorem c6_counterexample :
    (parse_login_result "p" { text := "zzz", url := "https://panel12.serv00.com/login/" } "u").status
      = AccountStatus.UNKNOWN ∧
    (parse_login_result "p" { text := "zzz", url := "https://panel12.serv00.com/login/" } "u").details
      ≠ none := by decide

/-- C6 (amended): the classifier populates details for Banned (ban reason),
LoginFailed (error text), and Unknown (response URL) results — Active
results carry the optional validity text — and it never produces
NetworkError; a NetworkError result of login has details either absent
(token failure) or equal to the text of a raised transport exception. -/
theorem c6_details_population :
    (∀ pu resp u,
      (parse_login_result pu resp u).status ≠ AccountStatus.NETWORK_ERROR ∧
      ((parse_login_result pu resp u).status = AccountStatus.BANNED →
        (parse_login_result pu resp u).details = some (extract_ban_reason resp.text)) ∧
      ((parse_login_result pu resp u).status = AccountStatus.LOGIN_FAILED →
        ∃ s, (parse_login_result pu resp u).details = some s) ∧
      ((parse_login_result pu resp u).status = AccountStatus.UNKNOWN →
        (parse_login_result pu resp u).details = some ("响应 URL: " ++ resp.url))) ∧
    (∀ st u rc atts,
      (login st u rc atts).1.status = AccountStatus.NETWORK_ERROR →
      ((login st u rc atts).1.details = none ∨
        ∃ i e, (atts i).postOutcome = Except.error e ∧
          (login st u rc atts).1.details = some e)) := by
  constructor
  · intro pu resp u
    refine ⟨parse_status_ne_network pu resp u, ?_⟩
    unfold parse_login_result
    dsimp only
    split_ifs <;> simp
  · intro st u rc atts h
    exact loginAux_network_details u rc atts rc.toNat st 0 none (Or.inl rfl) h

/-- C6 witness. -/
theorem c6_details_population_witness :
    (parse_login_result "p" { text := "zzz", url := "uu" } "u").details
      = some ("响应 URL: " ++ "uu") ∧
    ((login clientC "u" 2 attsTokenFail).1.details = none ∨
      ∃ i e, (attsTokenFail i).postOutcome = Except.error e ∧
        (login clientC "u" 2 attsTokenFail).1.details = some e) :=
  ⟨(c6_details_population.1 "p" { text := "zzz", url := "uu" } "u").2.2.2 (by decide),
   c6_details_population.2 clientC "u" 2 attsTokenFail (by decide)⟩

/-- C7: a body with the secondary ban pattern yields the captured, stripped
reason text; a body where the secondary pattern finds no match yields the
fixed default reason constant. -/
theorem c7_ban_reason_extraction :
    extract_ban_reason "Konto zablokowane: spam abuse<br>" = "spam abuse" ∧
    ∀ content, reSearch BAN_REASON_PATTERN content = none →
      extract_ban_reason content = "TOS 违规" := by
  refine ⟨by decide, fun content h => ?_⟩
  simp [extract_ban_reason, h]

/-- C7 witness. -/
theorem c7_ban_reason_extraction_witness :
    extract_ban_reason "" = "TOS 违规" ∧
    extract_ban_reason "Konto zablokowane: spam abuse<br>" = "spam abuse" :=
  ⟨c7_ban_reason_extraction.2 "" (by decide), c7_ban_reason_extraction.1⟩

/-- C8 counterexample: the session built after a transport exception does
not carry the construction-time headers: its User-Agent is a shorter
string, and the other construction headers are missing. -/
theorem c8_counterexample :
    lookupHeader "User-Agent" resetSession.headers =
      some "Mozilla/5.0 (Windows NT 10.0; Win64; x64) AppleWebKit/537.36" ∧
    lookupHeader "User-Agent" initSession.headers =
      some "Mozilla/5.0 (Windows NT 10.0; Win64; x64) AppleWebKit/537.36 (KHTML, like Gecko) Chrome/120.0.0.0 Safari/537.36" ∧
    resetSession.headers ≠ initSession.headers ∧
    (login clientC "u" 1 attsAllRaise).2.1.session = resetSession := by decide

/-- C8 (amended): after any attempt raises a transport exception the session
is replaced by a fresh one with an empty cookie jar whose headers set only a
User-Agent — a shorter string than the construction one, without the other
construction headers — while panel_url and timeout are unchanged. -/
theorem c8_session_reset (st : Serv00Client) (u : String) (rc : Int)
    (atts : Nat → Attempt) (err : Nat → String) (hrc : 1 ≤ rc) :
    ((∀ i, i < rc.toNat → do_login st.panel_url u (atts i) = .error (err i)) →
      (login st u rc atts).2.1 = { st with session := resetSession }) ∧
    (∀ k r, k < rc.toNat → 1 ≤ k →
      (∀ j, j < k → do_login st.panel_url u (atts j) = .error (err j)) →
      do_login st.panel_url u (atts k) = .ok r →
      (login st u rc atts).2.1 = { st with session := resetSession }) ∧
    resetSession.cookies = [] ∧
    resetSession.headers = RESET_HEADER_UPDATE ∧
    ({ st with session := resetSession }).panel_url = st.panel_url ∧
    ({ st with session := resetSession }).timeout = st.timeout := by
  refine ⟨?_, ?_, rfl, by decide, rfl, rfl⟩
  · intro h
    have hall := loginAux_all_error u rc atts err rc.toNat st 0 none
      (fun j hj => by simpa using h j hj)
    have hne : ¬ rc.toNat = 0 := by omega
    simp [login, hall, hne]
  · intro k r hk hk1 herr hok
    have hs := loginAux_success u rc atts err k rc.toNat st 0 none r hk
      (fun j hj => by simpa using herr j hj) (by simpa using hok)
    have hkne : ¬ k = 0 := by omega
    simp [login, hs, hkne]

/-- C8 witness. -/
theorem c8_session_reset_witness :
    (login clientC "u" 2 attsAllRaise).2.1 = { clientC with session := resetSession } ∧
    (login clientC "u" 2 attsRaiseThenOk).2.1 = { clientC with session := resetSession } := by
  constructor
  · exact (c8_session_reset clientC "u" 2 attsAllRaise errBoom (by omega)).1 (fun i _ => rfl)
  · exact (c8_session_reset clientC "u" 2 attsRaiseThenOk errBoom (by omega)).2.1 1
      (parse_login_result clientC.panel_url
        { text := ACTIVE_BODY, url := "https://panel12.serv00.com/" } "u")
      (by omega) (by omega)
      (fun j hj => by
        have hj0 : j = 0 := by omega
        subst hj0; rfl)
      rfl

/-- C9: a success body carrying the validity pattern yields an Active result
whose detail is the fixed validity label followed by the captured date; when
the validity pattern is absent the Active detail is absent, not an error. -/
theorem c9_validity_extraction :
    ((parse_login_result "p" { text := ACTIVE_BODY, url := "u" } "user").status
        = AccountStatus.ACTIVE ∧
      (parse_login_result "p" { text := ACTIVE_BODY, url := "u" } "user").details
        = some "有效期至: 2 stycznia 2036") ∧
    (∀ pu resp u, reSearch VALIDITY_PATTERN resp.text = none →
      BANNED_KEYWORDS.any (fun kw => strContains resp.text kw) = false →
      SUCCESS_KEYWORDS.any (fun kw => strContains resp.text kw) = true →
      (parse_login_result pu resp u).status = AccountStatus.ACTIVE ∧
      (parse_login_result pu resp u).details = none) := by
  refine ⟨by decide, fun pu resp u hs h1 h2 => ?_⟩
  constructor <;> simp [parse_login_result, h1, h2, extract_account_validity, hs]

/-- C9 witness. -/
theorem c9_validity_extraction_witness :
    (parse_login_result "p" { text := "Dashboard", url := "u" } "user").status
      = AccountStatus.ACTIVE ∧
    (parse_login_result "p" { text := "Dashboard", url := "u" } "user").details = none :=
  c9_validity_extraction.2 "p" { text := "Dashboard", url := "u" } "user"
    (by decide) (by decide) (by decide)

/-- C10: with retry_count ≤ 0 the attempt loop body never runs: no attempt
is made, and login returns a NetworkError result with absent details and the
client state untouched. -/
theorem c10_nonpositive_retry_count (st : Serv00Client) (u : String) (rc : Int)
    (atts : Nat → Attempt) (h : rc ≤ 0) :
    login st u rc atts =
      ({ status := .NETWORK_ERROR,
         message := "网络错误 (重试 " ++ toString rc ++ " 次后失败)",
         panel_url := st.panel_url, username := u, details := none }, st, 0) := by
  have h0 : rc.toNat = 0 := by omega
  simp [login, h0, loginAux]

/-- C10 witness. -/
theorem c10_nonpositive_retry_count_witness :
    login clientC "u" (-2) attsAllRaise =
      ({ status := .NETWORK_ERROR,
         message := "网络错误 (重试 " ++ toString (-2 : Int) ++ " 次后失败)",
         panel_url := clientC.panel_url, username := "u", details := none }, clientC, 0) :=
  c10_nonpositive_retry_count clientC "u" (-2) attsAllRaise (by omega)
